import Mathlib

/-!
Shallow embedding of the cookbook script
`src/book/src/configuration/cookbook/custom-clock.py`.

The script is an unconditional `while True` loop.  Each pass allocates a
270x28 ARGB32 cairo image surface, configures a drawing context (font size
16, face "Courier" with normal slant and weight, current point (3, 20),
source colour RGB 1.0/1.0/1.0), formats the current local time with the
default Python stringification, draws that string, writes the surface as a
PNG to the fixed path /tmp/custom-clock.png, prints the path and the time
string, flushes stdout and sleeps one second.

The embedding has three complementary views, all generated from the same
source lines:
* an event trace (`loopBody`, `trace`) recording each external call in the
  order the script issues it;
* a state-passing rendering model (`ImageSurface`, `Context`,
  `renderIteration`) recording what ends up on the surface that is written;
* a fallible interpreter (`attemptBody`, `runWithFaults`) in which any
  external call may raise, reflecting that the script has no try/except.
-/

namespace CustomClock

/-- A naive local date-time value as produced by `datetime.datetime.now()`:
year, month, day, hour, minute, second and microsecond fields. -/
structure PyDateTime where
  year : Nat
  month : Nat
  day : Nat
  hour : Nat
  minute : Nat
  second : Nat
  microsecond : Nat
deriving DecidableEq, Repr

/-- Left-pad the decimal representation of `n` with zeros to `width`. -/
def padNum (width n : Nat) : String :=
  let s := toString n
  String.mk (List.replicate (width - s.length) '0') ++ s

/-- Date part of the default Python stringification: `YYYY-MM-DD`. -/
def pyDateStr (d : PyDateTime) : String :=
  padNum 4 d.year ++ "-" ++ padNum 2 d.month ++ "-" ++ padNum 2 d.day

/-- Time part of the default Python stringification: `HH:MM:SS`, with a
`.ffffff` microsecond suffix only when the microsecond field is nonzero
(CPython isoformat with timespec auto). -/
def pyTimeStr (d : PyDateTime) : String :=
  if d.microsecond = 0 then
    padNum 2 d.hour ++ ":" ++ padNum 2 d.minute ++ ":" ++ padNum 2 d.second
  else
    padNum 2 d.hour ++ ":" ++ padNum 2 d.minute ++ ":" ++ padNum 2 d.second
      ++ "." ++ padNum 6 d.microsecond

/-- Modelled from the spec: the default textual representation of a Python
date-time, `str(datetime)`, which CPython defines as isoformat with a space
separator.  The library source is outside this repository, so the
behaviour is modelled from its documented contract: date part, a space,
time part. -/
def pyStr (d : PyDateTime) : String :=
  pyDateStr d ++ " " ++ pyTimeStr d

/-- The format the spec claims for the timestamp string, written exactly as
the spec words it: `YYYY-MM-DD HH:MM:SS.ffffff`, with the `.ffffff`
microseconds part omitted when microseconds are zero. -/
def specTimestampStr (d : PyDateTime) : String :=
  let core := padNum 4 d.year ++ "-" ++ padNum 2 d.month ++ "-" ++ padNum 2 d.day
    ++ " " ++ padNum 2 d.hour ++ ":" ++ padNum 2 d.minute ++ ":" ++ padNum 2 d.second
  if d.microsecond = 0 then core else core ++ "." ++ padNum 6 d.microsecond

/-- Cairo pixel formats relevant to the script (`cairo.Format`). -/
inductive PixelFormat where
  | argb32
  | rgb24
  | a8
deriving DecidableEq, Repr

/-- Cairo font slants (`cairo.FONT_SLANT_*`). -/
inductive FontSlant where
  | normal
  | italic
  | oblique
deriving DecidableEq, Repr

/-- Cairo font weights (`cairo.FONT_WEIGHT_*`). -/
inductive FontWeight where
  | normal
  | bold
deriving DecidableEq, Repr

/-- `WIDTH, HEIGHT = 270, 28` from the script. -/
def WIDTH : Nat := 270

/-- `WIDTH, HEIGHT = 270, 28` from the script. -/
def HEIGHT : Nat := 28

/-- `output_filename = '/tmp/custom-clock.png'` from the script. -/
def output_filename : String := "/tmp/custom-clock.png"

/-- One external call made by the loop body, in the order the script issues
them.  `getTime` records the value returned by `datetime.datetime.now()`. -/
inductive Event where
  | allocSurface (fmt : PixelFormat) (width height : Nat)
  | createContext
  | setFontSize (size : Nat)
  | selectFontFace (family : String) (slant : FontSlant) (weight : FontWeight)
  | moveTo (x y : Nat)
  | setSourceRGB (r g b : Rat)
  | getTime (t : PyDateTime)
  | showText (s : String)
  | fillCall
  | writeToPNG (path : String)
  | printLine (line : String)
  | flushStdout
  | sleep (seconds : Nat)
deriving DecidableEq, Repr

/-- The loop body of the script, line for line, as the sequence of external
calls one iteration performs when the clock reads `now`. -/
def loopBody (now : PyDateTime) : List Event :=
  [Event.allocSurface PixelFormat.argb32 WIDTH HEIGHT,
   Event.createContext,
   Event.setFontSize 16,
   Event.selectFontFace "Courier" FontSlant.normal FontWeight.normal,
   Event.moveTo 3 20,
   Event.setSourceRGB 1 1 1,
   Event.getTime now,
   Event.showText (pyStr now),
   Event.fillCall,
   Event.writeToPNG output_filename,
   Event.printLine output_filename,
   Event.printLine (pyStr now),
   Event.flushStdout,
   Event.sleep 1]

/-- The events of the first `n` iterations, given the date-time the clock
returns on each iteration. -/
def trace (clock : Nat → PyDateTime) (n : Nat) : List Event :=
  (List.range n).flatMap fun i => loopBody (clock i)

/-- The lines the events print to standard output, in order. -/
def stdoutLines (evts : List Event) : List String :=
  evts.filterMap fun e =>
    match e with
    | Event.printLine s => some s
    | _ => none

/-- The strings drawn onto the surface by `show_text` calls, in order. -/
def shownTexts (evts : List Event) : List String :=
  evts.filterMap fun e =>
    match e with
    | Event.showText s => some s
    | _ => none

/-- The clock readings captured by `datetime.datetime.now()` calls. -/
def capturedTimes (evts : List Event) : List PyDateTime :=
  evts.filterMap fun e =>
    match e with
    | Event.getTime t => some t
    | _ => none

/-- Recogniser for surface-allocation events. -/
def isAllocEvt : Event → Bool
  | Event.allocSurface _ _ _ => true
  | _ => false

/-- Recogniser for clock-capture events. -/
def isGetTimeEvt : Event → Bool
  | Event.getTime _ => true
  | _ => false

/-- Recogniser for text-drawing events. -/
def isShowTextEvt : Event → Bool
  | Event.showText _ => true
  | _ => false

/-- Recogniser for PNG-write events. -/
def isWriteEvt : Event → Bool
  | Event.writeToPNG _ => true
  | _ => false

/-- Recogniser for stdout print events. -/
def isPrintEvt : Event → Bool
  | Event.printLine _ => true
  | _ => false

/-- Recogniser for font-size configuration events. -/
def isSetFontSizeEvt : Event → Bool
  | Event.setFontSize _ => true
  | _ => false

/-- Recogniser for font-face configuration events. -/
def isSelectFontFaceEvt : Event → Bool
  | Event.selectFontFace _ _ _ => true
  | _ => false

/-- Recogniser for current-point configuration events. -/
def isMoveToEvt : Event → Bool
  | Event.moveTo _ _ => true
  | _ => false

/-- Recogniser for source-colour configuration events. -/
def isSetSourceEvt : Event → Bool
  | Event.setSourceRGB _ _ _ => true
  | _ => false

/-- A sample clock reading used for concrete evaluations. -/
def sampleTime : PyDateTime :=
  { year := 2026, month := 10, day := 12, hour := 9, minute := 30,
    second := 5, microsecond := 250000 }

/-- A clock that always returns `sampleTime`. -/
def sampleClock : Nat → PyDateTime := fun _ => sampleTime

/-- One text draw committed to a surface: the drawn string together with
the context state (current point, font, colour) in force when
`show_text` ran. -/
structure TextOp where
  text : String
  x : Nat
  y : Nat
  fontFamily : Option String
  fontSize : Nat
  slant : FontSlant
  weight : FontWeight
  red : Rat
  green : Rat
  blue : Rat
deriving DecidableEq, Repr

/-- An in-memory cairo image surface: pixel format, dimensions and the
list of draws committed to it.  A freshly created surface has no draws,
i.e. every pixel is still the zero-initialised fully transparent value. -/
structure Surface where
  format : PixelFormat
  width : Nat
  height : Nat
  ops : List TextOp
deriving DecidableEq, Repr

/-- `cairo.ImageSurface(fmt, w, h)`: a fresh zero-initialised surface. -/
def ImageSurface (fmt : PixelFormat) (w h : Nat) : Surface :=
  { format := fmt, width := w, height := h, ops := [] }

/-- A cairo drawing context bound to a surface.  Defaults follow cairo:
font size 10, library-default font face, no current point, opaque black
source colour. -/
structure Context where
  surface : Surface
  fontSize : Nat
  fontFamily : Option String
  slant : FontSlant
  weight : FontWeight
  pos : Option (Nat × Nat)
  red : Rat
  green : Rat
  blue : Rat
deriving DecidableEq, Repr

/-- `cairo.Context(sfc)`. -/
def Context.create (s : Surface) : Context :=
  { surface := s, fontSize := 10, fontFamily := none, slant := FontSlant.normal,
    weight := FontWeight.normal, pos := none, red := 0, green := 0, blue := 0 }

/-- `ctx.set_font_size(n)`. -/
def Context.set_font_size (c : Context) (n : Nat) : Context :=
  { c with fontSize := n }

/-- `ctx.select_font_face(family, slant, weight)`. -/
def Context.select_font_face (c : Context) (family : String)
    (slant : FontSlant) (weight : FontWeight) : Context :=
  { c with fontFamily := some family, slant := slant, weight := weight }

/-- `ctx.move_to(x, y)`. -/
def Context.move_to (c : Context) (x y : Nat) : Context :=
  { c with pos := some (x, y) }

/-- `ctx.set_source_rgb(r, g, b)`; no alpha parameter, cairo treats the
source as fully opaque. -/
def Context.set_source_rgb (c : Context) (r g b : Rat) : Context :=
  { c with red := r, green := g, blue := b }

/-- `ctx.show_text(s)`: draws `s` at the current point (cairo uses the
origin when no current point is set) with the current font and colour,
committing the draw to the surface immediately. -/
def Context.show_text (c : Context) (s : String) : Context :=
  let p := c.pos.getD (0, 0)
  { c with surface :=
      { c.surface with ops := c.surface.ops ++
          [{ text := s, x := p.1, y := p.2, fontFamily := c.fontFamily,
             fontSize := c.fontSize, slant := c.slant, weight := c.weight,
             red := c.red, green := c.green, blue := c.blue }] } }

/-- `ctx.fill()`: with no pending path this is a no-op (`show_text` has
already committed the glyphs). -/
def Context.fill (c : Context) : Context := c

/-- The rendering part of one loop iteration, line for line from the
script: the surface handed to `write_to_png`, the path written, and the
two lines printed. -/
def renderIteration (now : PyDateTime) : Surface × String × List String :=
  let sfc := ImageSurface PixelFormat.argb32 WIDTH HEIGHT
  let ctx := Context.create sfc
  let ctx := ctx.set_font_size 16
  let ctx := ctx.select_font_face "Courier" FontSlant.normal FontWeight.normal
  let ctx := ctx.move_to 3 20
  let ctx := ctx.set_source_rgb 1 1 1
  let time_str := pyStr now
  let ctx := ctx.show_text time_str
  let ctx := ctx.fill
  (ctx.surface, output_filename, [output_filename, time_str])

/-- The surface written to disk on the iteration whose clock reading is
`now`. -/
def surfaceOf (now : PyDateTime) : Surface :=
  (renderIteration now).1

/-- The PNG writes the first `n` iterations perform: path and surface
content of each, in order. -/
def writes (clock : Nat → PyDateTime) (n : Nat) : List (String × Surface) :=
  (List.range n).map fun i => (output_filename, surfaceOf (clock i))

/-- The empty filesystem: no path holds a file. -/
def emptyFS : String → Option Surface := fun _ => none

/-- One file write: the new content fully supersedes whatever the path
held before. -/
def fsStep (f : String → Option Surface) (w : String × Surface) :
    String → Option Surface :=
  fun q => if q = w.1 then some w.2 else f q

/-- Filesystem contents after the first `n` iterations have written. -/
def fsAfter (clock : Nat → PyDateTime) (n : Nat) : String → Option Surface :=
  (writes clock n).foldl fsStep emptyFS

/-- The `while True` condition of the script, the literal `True`. -/
def whileTrueCond : Bool := true

/-- Process state of the loop: how many iterations have completed and the
events they emitted. -/
structure ProcState where
  iteration : Nat
  events : List Event
deriving Repr

/-- One pass of the `while` loop: the condition is the literal `True`, the
body contains no break or return, so the body always runs and control
returns to the top. -/
def step (clock : Nat → PyDateTime) (s : ProcState) : ProcState :=
  if whileTrueCond then
    { iteration := s.iteration + 1,
      events := s.events ++ loopBody (clock s.iteration) }
  else s

/-- The loop after `n` passes. -/
def run (clock : Nat → PyDateTime) : Nat → ProcState
  | 0 => { iteration := 0, events := [] }
  | n + 1 => step clock (run clock n)

/-- Errors a step of the body may raise (allocation, drawing, encoding,
filesystem or stdout failures). -/
inductive PyError where
  | memoryError (msg : String)
  | ioError (msg : String)
  | cairoError (msg : String)
deriving DecidableEq, Repr

/-- Run the body steps in order under a fault oracle: step `k` of the body
either raises the error the oracle assigns to `k` or performs its event.
There is no try/except in the script, so the first raise aborts the rest
of the body and propagates. -/
def attemptBody (fault : Nat → Option PyError) :
    List Event → Nat → Except PyError (List Event)
  | [], _ => Except.ok []
  | e :: rest, k =>
    match fault k with
    | some err => Except.error err
    | none =>
      match attemptBody fault rest (k + 1) with
      | Except.error err => Except.error err
      | Except.ok evts => Except.ok (e :: evts)

/-- The whole loop under a per-iteration fault oracle: once any step of
any iteration raises, the loop is gone and every later observation is the
same propagated error — no retry, fallback or recovery. -/
def runWithFaults (fault : Nat → Nat → Option PyError)
    (clock : Nat → PyDateTime) : Nat → Except PyError (List Event)
  | 0 => Except.ok []
  | n + 1 =>
    match runWithFaults fault clock n with
    | Except.error err => Except.error err
    | Except.ok evts =>
      match attemptBody (fault n) (loopBody (clock n)) 0 with
      | Except.error err => Except.error err
      | Except.ok more => Except.ok (evts ++ more)

/-- The script as a whole program: it receives the command line and the
environment like any process, but the module body never reads `sys.argv`
or `os.environ`, so the trace is a function of the clock alone. -/
def program (argv : List String) (env : String → Option String)
    (clock : Nat → PyDateTime) (n : Nat) : List Event :=
  trace clock n

/-- The PNG writes of the whole program; like `program`, the command line
and environment are never consulted. -/
def programWrites (argv : List String) (env : String → Option String)
    (clock : Nat → PyDateTime) (n : Nat) : List (String × Surface) :=
  writes clock n

/-- A fault oracle for concrete evaluation: the `write_to_png` call of the
first iteration (step index 9 of the body) raises an IO error, everything
else succeeds. -/
def diskFullFault : Nat → Nat → Option PyError :=
  fun i j => if i = 0 ∧ j = 9 then some (PyError.ioError "disk full") else none

/-- String append is associative. -/
theorem str_append_assoc (a b c : String) : a ++ b ++ c = a ++ (b ++ c) :=
  String.ext (by simp [List.append_assoc])

/-- The trace of `n + 1` iterations extends the trace of `n` iterations by
the body of iteration `n`. -/
theorem trace_succ (clock : Nat → PyDateTime) (n : Nat) :
    trace clock (n + 1) = trace clock n ++ loopBody (clock n) := by
  simp [trace, List.range_succ]

/-- The writes of `n + 1` iterations extend the writes of `n` iterations
by the write of iteration `n`. -/
theorem writes_succ (clock : Nat → PyDateTime) (n : Nat) :
    writes clock (n + 1) =
      writes clock n ++ [(output_filename, surfaceOf (clock n))] := by
  simp [writes, List.range_succ]

/-- On a path other than the fixed output path the filesystem never holds
a file, whatever the iteration count. -/
theorem fsAfter_ne (clock : Nat → PyDateTime) (n : Nat) :
    ∀ q, q ≠ output_filename → fsAfter clock n q = none := by
  induction n with
  | zero => intro q _; rfl
  | succ m ih =>
    intro q hq
    have hstep : fsAfter clock (m + 1) q =
        fsStep (fsAfter clock m) (output_filename, surfaceOf (clock m)) q := by
      rw [fsAfter, writes_succ, List.foldl_append]; rfl
    rw [hstep]
    simp only [fsStep]
    rw [if_neg hq]
    exact ih q hq

/-- A body whose steps never fault performs all its events. -/
theorem attemptBody_ok (fault : Nat → Option PyError)
    (hclean : ∀ j, fault j = none) :
    ∀ (l : List Event) (s : Nat), attemptBody fault l s = Except.ok l := by
  intro l
  induction l with
  | nil => intro s; rfl
  | cons e rest ih => intro s; simp [attemptBody, hclean s, ih (s + 1)]

/-- If the steps before index `s + k` succeed and step `s + k` faults,
running the body from index `s` propagates exactly that error. -/
theorem attemptBody_error (fault : Nat → Option PyError) (err : PyError) :
    ∀ (l : List Event) (s k : Nat),
      (∀ j, s ≤ j → j < s + k → fault j = none) →
      fault (s + k) = some err → k < l.length →
      attemptBody fault l s = Except.error err := by
  intro l
  induction l with
  | nil =>
    intro s k _ _ hk
    simp at hk
  | cons e rest ih =>
    intro s k hclean hsome hk
    cases k with
    | zero =>
      have h0 : fault s = some err := by simpa using hsome
      simp [attemptBody, h0]
    | succ k =>
      have hs : fault s = none := hclean s (Nat.le_refl s) (by omega)
      have hrec : attemptBody fault rest (s + 1) = Except.error err := by
        apply ih (s + 1) k
        · intro j hj1 hj2
          exact hclean j (by omega) (by omega)
        · have harith : s + 1 + k = s + (k + 1) := by omega
          rw [harith]; exact hsome
        · have hlen := hk
          simp [List.length_cons] at hlen
          omega
      simp [attemptBody, hs, hrec]

/-- A run in which no step of the first `n` iterations faults performs the
whole `n`-iteration trace. -/
theorem runWithFaults_clean (fault : Nat → Nat → Option PyError)
    (clock : Nat → PyDateTime) :
    ∀ n, (∀ m, m < n → ∀ j, fault m j = none) →
      runWithFaults fault clock n = Except.ok (trace clock n) := by
  intro n
  induction n with
  | zero => intro _; rfl
  | succ m ih =>
    intro h
    have hm := ih fun i hi j => h i (by omega) j
    have hclean : ∀ j, fault m j = none := h m (by omega)
    simp [runWithFaults, hm, attemptBody_ok (fault m) hclean, trace_succ]

/-- Once the loop has died on an error, every later observation is that
same error: there is no retry or recovery. -/
theorem runWithFaults_error_stable (fault : Nat → Nat → Option PyError)
    (clock : Nat → PyDateTime) (err : PyError) (m : Nat)
    (h : runWithFaults fault clock m = Except.error err) :
    runWithFaults fault clock (m + 1) = Except.error err := by
  simp [runWithFaults, h]

/-- Claim C1, as stated, is false on the code: in the loop body the clock
capture (`datetime.datetime.now()`, line 15) does NOT precede the canvas
allocation (`cairo.ImageSurface`, line 9); the allocation comes first, so
at a concrete clock reading the capture index is not below the allocation
index. -/
theorem C1_counterexample :
    ¬ ((loopBody sampleTime).findIdx isGetTimeEvt <
       (loopBody sampleTime).findIdx isAllocEvt) := by decide

/-- Claim C1 (amended): on every loop iteration the 270x28 canvas is
allocated and the drawing context configured (font size, font face,
current point, source colour) BEFORE the current local date-time is
obtained and formatted; the capture in turn precedes the text draw, which
precedes the file write, which precedes the printing. -/
theorem C1_step_order (now : PyDateTime) :
    (loopBody now).findIdx isAllocEvt < (loopBody now).findIdx isGetTimeEvt ∧
    (loopBody now).findIdx isSetFontSizeEvt <
      (loopBody now).findIdx isGetTimeEvt ∧
    (loopBody now).findIdx isSelectFontFaceEvt <
      (loopBody now).findIdx isGetTimeEvt ∧
    (loopBody now).findIdx isMoveToEvt < (loopBody now).findIdx isGetTimeEvt ∧
    (loopBody now).findIdx isSetSourceEvt <
      (loopBody now).findIdx isGetTimeEvt ∧
    (loopBody now).findIdx isGetTimeEvt < (loopBody now).findIdx isShowTextEvt ∧
    (loopBody now).findIdx isShowTextEvt < (loopBody now).findIdx isWriteEvt ∧
    (loopBody now).findIdx isWriteEvt < (loopBody now).findIdx isPrintEvt := by
  have ha : (loopBody now).findIdx isAllocEvt = 0 := rfl
  have hf : (loopBody now).findIdx isSetFontSizeEvt = 2 := rfl
  have hc : (loopBody now).findIdx isSelectFontFaceEvt = 3 := rfl
  have hm : (loopBody now).findIdx isMoveToEvt = 4 := rfl
  have hr : (loopBody now).findIdx isSetSourceEvt = 5 := rfl
  have hg : (loopBody now).findIdx isGetTimeEvt = 6 := rfl
  have hs : (loopBody now).findIdx isShowTextEvt = 7 := rfl
  have hw : (loopBody now).findIdx isWriteEvt = 9 := rfl
  have hp : (loopBody now).findIdx isPrintEvt = 10 := rfl
  rw [ha, hf, hc, hm, hr, hg, hs, hw, hp]
  omega

/-- Claim C2: on every iteration, after the PNG write the body prints
exactly two stdout lines in fixed order — the literal output path, then
the timestamp string — then flushes stdout, and only then sleeps one
second as the final action before the next iteration starts. -/
theorem C2_print_flush_sleep (clock : Nat → PyDateTime) (n : Nat) :
    trace clock (n + 1) = trace clock n ++ loopBody (clock n) ∧
    stdoutLines (loopBody (clock n)) = [output_filename, pyStr (clock n)] ∧
    (loopBody (clock n)).drop 9 =
      [Event.writeToPNG output_filename, Event.printLine output_filename,
       Event.printLine (pyStr (clock n)), Event.flushStdout, Event.sleep 1] ∧
    stdoutLines ((loopBody (clock n)).take 9) = [] ∧
    (loopBody (clock n)).getLast? = some (Event.sleep 1) :=
  ⟨trace_succ clock n, rfl, rfl, rfl, rfl⟩

/-- Claim C3: on every iteration the surface that is drawn on and then
serialized is exactly 270 pixels wide, 28 pixels high, ARGB32, and it is
created fresh that iteration: a new `cairo.ImageSurface` with no draws
(fully transparent zero-initialised pixels) is allocated in the body. -/
theorem C3_canvas_dimensions (now : PyDateTime) :
    (surfaceOf now).format = PixelFormat.argb32 ∧
    (surfaceOf now).width = 270 ∧
    (surfaceOf now).height = 28 ∧
    (ImageSurface PixelFormat.argb32 WIDTH HEIGHT).ops = [] ∧
    Event.allocSurface PixelFormat.argb32 270 28 ∈ loopBody now :=
  ⟨rfl, rfl, rfl, rfl, by simp [loopBody, WIDTH, HEIGHT]⟩

/-- Claim C4: the only path ever written or printed is the fixed string
/tmp/custom-clock.png — every PNG write of every iteration targets it, the
path line each iteration prints to stdout is exactly it, every write fully
supersedes the previous file content at that path, and no other path ever
holds a file. -/
theorem C4_fixed_output_path (clock : Nat → PyDateTime) (n : Nat) :
    (∀ p s, (p, s) ∈ writes clock n → p = output_filename) ∧
    fsAfter clock (n + 1) output_filename = some (surfaceOf (clock n)) ∧
    (∀ q, q ≠ output_filename → fsAfter clock n q = none) ∧
    (∀ p, Event.writeToPNG p ∈ loopBody (clock n) → p = output_filename) ∧
    (stdoutLines (loopBody (clock n))).head? = some output_filename ∧
    Event.printLine output_filename ∈ loopBody (clock n) := by
  refine ⟨?_, ?_, fsAfter_ne clock n, ?_, rfl, ?_⟩
  · intro p s hps
    simp [writes, List.mem_map] at hps
    obtain ⟨i, _, h1, _⟩ := hps
    exact h1.symm
  · rw [fsAfter, writes_succ, List.foldl_append]
    simp [fsStep, fsAfter]
  · intro p hp
    simp [loopBody] at hp
    exact hp
  · simp [loopBody]

/-- Concrete run of Claim C4: after one iteration on the sample clock the
fixed path holds the surface of that iteration and another path holds
nothing. -/
theorem C4_witness :
    fsAfter sampleClock 1 output_filename = some (surfaceOf sampleTime) ∧
    fsAfter sampleClock 1 "/tmp/elsewhere.png" = none :=
  ⟨(C4_fixed_output_path sampleClock 0).2.1,
   (C4_fixed_output_path sampleClock 1).2.2.1 "/tmp/elsewhere.png" (by decide)⟩

/-- Claim C5: on every iteration the single draw committed to the surface
carries font family Courier, size 16, normal slant, normal weight, is
placed at point (3, 20), and uses source colour RGB (1, 1, 1) set with no
explicit alpha; moreover each of the four configuration calls comes before
the `show_text` call in the body. -/
theorem C5_context_config (now : PyDateTime) :
    (surfaceOf now).ops =
      [{ text := pyStr now, x := 3, y := 20, fontFamily := some "Courier",
         fontSize := 16, slant := FontSlant.normal, weight := FontWeight.normal,
         red := 1, green := 1, blue := 1 }] ∧
    (loopBody now).findIdx isSetFontSizeEvt <
      (loopBody now).findIdx isShowTextEvt ∧
    (loopBody now).findIdx isSelectFontFaceEvt <
      (loopBody now).findIdx isShowTextEvt ∧
    (loopBody now).findIdx isMoveToEvt < (loopBody now).findIdx isShowTextEvt ∧
    (loopBody now).findIdx isSetSourceEvt <
      (loopBody now).findIdx isShowTextEvt := by
  have h1 : (loopBody now).findIdx isSetFontSizeEvt = 2 := rfl
  have h2 : (loopBody now).findIdx isSelectFontFaceEvt = 3 := rfl
  have h3 : (loopBody now).findIdx isMoveToEvt = 4 := rfl
  have h4 : (loopBody now).findIdx isSetSourceEvt = 5 := rfl
  have h5 : (loopBody now).findIdx isShowTextEvt = 7 := rfl
  refine ⟨rfl, ?_⟩
  rw [h1, h2, h3, h4, h5]
  omega

/-- Claim C6: the `while True` loop has no exit condition — the condition
is the literal true and each pass unconditionally runs the body — so for
every natural number `n` the `n`-th iteration is executed. -/
theorem C6_loop_never_exits (clock : Nat → PyDateTime) (n : Nat) :
    whileTrueCond = true ∧ (run clock n).iteration = n ∧
    run clock (n + 1) = step clock (run clock n) := by
  refine ⟨rfl, ?_, rfl⟩
  induction n with
  | zero => rfl
  | succ m ih => simp [run, step, whileTrueCond, ih]

/-- Claim C7: no step failure is caught anywhere: if the first fault in a
run hits step `k` of iteration `n` of the body, every later observation of
the process is exactly that propagated error — the rest of the body never
runs, and there is no retry, fallback or recovery on any later iteration. -/
theorem C7_no_error_handling (fault : Nat → Nat → Option PyError)
    (clock : Nat → PyDateTime) (n k : Nat) (err : PyError)
    (hprev : ∀ m, m < n → ∀ j, fault m j = none)
    (hbefore : ∀ j, j < k → fault n j = none)
    (hk : fault n k = some err)
    (hlen : k < (loopBody (clock n)).length) :
    ∀ m, n < m → runWithFaults fault clock m = Except.error err := by
  have hbase : runWithFaults fault clock (n + 1) = Except.error err := by
    have h1 := runWithFaults_clean fault clock n hprev
    have h2 : attemptBody (fault n) (loopBody (clock n)) 0 = Except.error err := by
      apply attemptBody_error (fault n) err (loopBody (clock n)) 0 k
      · intro j _ hj
        exact hbefore j (by omega)
      · simpa using hk
      · exact hlen
    simp [runWithFaults, h1, h2]
  intro m
  induction m with
  | zero => intro hm; omega
  | succ m ih =>
    intro hm
    rcases (Nat.lt_succ_iff.mp hm).lt_or_eq with h | h
    · exact runWithFaults_error_stable fault clock err m (ih h)
    · subst h; exact hbase

/-- Concrete run of Claim C7: a disk-full error raised by the first
`write_to_png` call is still the observed outcome two iterations later. -/
theorem C7_witness :
    runWithFaults diskFullFault sampleClock 2 =
      Except.error (PyError.ioError "disk full") :=
  C7_no_error_handling diskFullFault sampleClock 0 9 (PyError.ioError "disk full")
    (fun m hm => absurd hm (Nat.not_lt_zero m))
    (by decide) (by decide) (by decide) 2 (by decide)

/-- Claim C8: the program consults no command-line arguments and no
environment variables: two runs with the same clock have the same event
trace, the same stdout lines and the same written image content, whatever
`argv` and the environment are. -/
theorem C8_no_cli_no_env (argv₁ argv₂ : List String)
    (env₁ env₂ : String → Option String) (clock : Nat → PyDateTime) (n : Nat) :
    program argv₁ env₁ clock n = program argv₂ env₂ clock n ∧
    stdoutLines (program argv₁ env₁ clock n) =
      stdoutLines (program argv₂ env₂ clock n) ∧
    programWrites argv₁ env₁ clock n = programWrites argv₂ env₂ clock n :=
  ⟨rfl, rfl, rfl⟩

/-- Claim C9: each iteration captures the clock exactly once, and the
string drawn onto the canvas is the very string printed as the second
stdout line of that iteration. -/
theorem C9_single_capture (now : PyDateTime) :
    capturedTimes (loopBody now) = [now] ∧
    shownTexts (loopBody now) = [pyStr now] ∧
    stdoutLines (loopBody now) = [output_filename, pyStr now] :=
  ⟨rfl, rfl, rfl⟩

/-- Claim C10: the timestamp string of the body is the default Python
stringification of the captured date-time, and that stringification has
exactly the shape YYYY-MM-DD HH:MM:SS.ffffff with the .ffffff part omitted
when the microsecond field is zero, as the spec words it. -/
theorem C10_timestamp_format (d : PyDateTime) :
    pyStr d = specTimestampStr d ∧
    shownTexts (loopBody d) = [pyStr d] := by
  refine ⟨?_, rfl⟩
  unfold pyStr pyDateStr pyTimeStr specTimestampStr
  by_cases h : d.microsecond = 0
  · simp [h, str_append_assoc]
  · simp [h, str_append_assoc]

end CustomClock
